import Mathlib

/-!
Shallow embedding of the VRP scenario builder (src/vrp_ui.py): the scenario
data model, its mutating operations, the coordinate mapper, the problem
builder and the solve pipeline, with theorems checking the specified
properties against these definitions.
-/

namespace VRP

/-- A scenario node (customer or depot), translated from class VRPNode.
The Python set of required skills is modelled as a duplicate-free list. -/
structure Node where
  id : Nat
  x : ℝ
  y : ℝ
  is_depot : Bool
  time_window : Option (Int × Int)
  required_skills : List String

instance : Inhabited Node := ⟨⟨0, 0, 0, false, none, []⟩⟩

/-- VRPNode.__init__: a depot always takes id 0 and leaves the class id
counter untouched; a customer takes the current counter value as its id and
bumps the counter. Returns the created node with the new counter. -/
def VRPNode_init (counter : Nat) (x y : ℝ) (is_depot : Bool) : Node × Nat :=
  if is_depot then
    ({ id := 0, x := x, y := y, is_depot := true, time_window := none,
       required_skills := [] }, counter)
  else
    ({ id := counter, x := x, y := y, is_depot := false, time_window := none,
       required_skills := [] }, counter + 1)

/-- The module-level initial value of VRPNode.id_counter. -/
def initial_id_counter : Nat := 0

/-- The scenario aggregate owned by VRPApp: nodes, fleet size, skill catalog,
vehicle skill assignments (Python dict modelled as an association list) and
the last solution routes. -/
structure Scenario where
  nodes : List Node
  num_vehicles : Nat
  available_skills : List String
  vehicle_skills : List (Nat × List String)
  routes : List (List Nat)

/- Coordinate mapper (VRPApp.canvas_to_vrp_coords / vrp_to_canvas_coords),
with the fixed parameters set in VRPApp.__init__. -/

def canvas_width : Nat := 800

def canvas_height : Nat := 600

def scale_factor : ℝ := 10

/-- VRPApp.canvas_to_vrp_coords: canvas pixel coordinates to problem space;
the canvas center maps to the origin and the vertical axis is inverted. -/
noncomputable def canvas_to_vrp_coords (canvas_x canvas_y : ℝ) : ℝ × ℝ :=
  ((canvas_x - (canvas_width / 2 : Nat)) / scale_factor,
   (((canvas_height / 2 : Nat) : ℝ) - canvas_y) / scale_factor)

/-- VRPApp.vrp_to_canvas_coords: problem space to canvas pixels. -/
noncomputable def vrp_to_canvas_coords (vrp_x vrp_y : ℝ) : ℝ × ℝ :=
  (vrp_x * scale_factor + (canvas_width / 2 : Nat),
   (((canvas_height / 2 : Nat) : ℝ) - vrp_y * scale_factor))

/- Time window editing (VRPApp.on_set_time_window). -/

/-- Outcome reported by the set-time-window handler: ok on success, otherwise
the warning dialog that was shown (model state untouched). -/
inductive TWResult where
  | ok
  | emptyInput
  | endNotGreater
  | negativeStart
  | nonInteger
deriving DecidableEq

/-- Python str.strip(): drop whitespace from both ends (on the char list of
the string). -/
def stripChars (l : List Char) : List Char :=
  ((l.dropWhile Char.isWhitespace).reverse.dropWhile Char.isWhitespace).reverse

/-- The value of a digit list read in base 10. -/
def digitsToNat (l : List Char) : Nat :=
  l.foldl (fun acc c => acc * 10 + (c.toNat - 48)) 0

/-- Python int() on an already stripped text: an optional sign followed by at
least one digit, anything else raises ValueError (modelled as none). -/
def parseInt : List Char → Option Int
  | [] => none
  | c :: rest =>
    if c = '-' then
      if !rest.isEmpty && rest.all Char.isDigit then
        some (-(digitsToNat rest : Int))
      else none
    else if c = '+' then
      if !rest.isEmpty && rest.all Char.isDigit then
        some (digitsToNat rest : Int)
      else none
    else if (c :: rest).all Char.isDigit then
      some (digitsToNat (c :: rest) : Int)
    else none

/-- VRPApp.on_set_time_window for a selected node: strips both entry texts,
rejects empty input, parses both as integers, rejects end not greater than
start and negative start, and only then stores the window on the node. -/
def on_set_time_window (node : Node) (start_text end_text : String) :
    Node × TWResult :=
  let st := stripChars start_text.data
  let et := stripChars end_text.data
  if st.isEmpty || et.isEmpty then (node, TWResult.emptyInput)
  else
    match parseInt st, parseInt et with
    | some s, some e =>
      if s ≥ e then (node, TWResult.endNotGreater)
      else if s < 0 then (node, TWResult.negativeStart)
      else ({ node with time_window := some (s, e) }, TWResult.ok)
    | _, _ => (node, TWResult.nonInteger)

/- Skill catalog editing (VRPApp.on_delete_skill, after the user confirms). -/

/-- VRPApp.on_delete_skill: removes the skill from the catalog, from every
vehicle entry of the vehicle_skills mapping, and from the required skills of
every node. -/
def on_delete_skill (s : Scenario) (skill : String) : Scenario :=
  { s with
    available_skills := s.available_skills.erase skill
    vehicle_skills := s.vehicle_skills.map (fun p => (p.1, p.2.erase skill))
    nodes := s.nodes.map
      (fun n => { n with required_skills := n.required_skills.erase skill }) }

/- Preset loading (VRPApp.on_load_preset). -/

/-- A parsed preset file: each top-level key is present (some) or missing
(none). Accessing a missing key in the Python code raises KeyError. -/
structure PresetData where
  nodes : Option (List Node)
  num_vehicles : Option Nat
  available_skills : Option (List String)
  vehicle_skills : Option (List (Nat × List String))

/-- VRPApp.on_load_preset after the file has been read and parsed: the live
node list and routes are cleared first, then each key is read and assigned in
order; a missing key raises, the exception handler reports the error, and all
assignments made before the failure persist. Returns the scenario as left
behind and whether an error was surfaced. -/
def on_load_preset (s : Scenario) (d : PresetData) : Scenario × Bool :=
  let s0 : Scenario := { s with nodes := [], routes := [] }
  match d.nodes with
  | none => (s0, true)
  | some ns =>
    let s1 : Scenario := { s0 with nodes := ns }
    match d.num_vehicles with
    | none => (s1, true)
    | some nv =>
      let s2 : Scenario := { s1 with num_vehicles := nv }
      match d.available_skills with
      | none => (s2, true)
      | some sk =>
        let s3 : Scenario := { s2 with available_skills := sk }
        match d.vehicle_skills with
        | none => (s3, true)
        | some vsk => ({ s3 with vehicle_skills := vsk }, false)

/- Problem builder (VRPApp.prepare_solver_data). Coordinates are reals, so
the Euclidean distance uses Real.sqrt; the Python int() truncation of the
nonnegative product is the integer floor. -/

/-- The scaled integer cost of the arc between two nodes:
int(math.sqrt((xi - xj)**2 + (yi - yj)**2) * 100). -/
noncomputable def distEntry (a b : Node) : ℤ :=
  Int.floor (Real.sqrt ((a.x - b.x) ^ 2 + (a.y - b.y) ^ 2) * 100)

/-- The distance matrix built by prepare_solver_data: indexed by node
position, zero on the diagonal, distEntry off it. -/
noncomputable def distance_matrix (nodes : List Node) : List (List ℤ) :=
  (List.range nodes.length).map (fun i =>
    (List.range nodes.length).map (fun j =>
      if i = j then 0 else distEntry (nodes.getD i default) (nodes.getD j default)))

/-- The dictionary returned by prepare_solver_data. -/
structure SolverData where
  distance_matrix : List (List ℤ)
  num_vehicles : Nat
  depot : Nat

/-- VRPApp.prepare_solver_data: the distance matrix, the vehicle count, and
depot position 0. -/
noncomputable def prepare_solver_data (nodes : List Node) (num_vehicles : Nat) :
    SolverData :=
  { distance_matrix := distance_matrix nodes
    num_vehicles := num_vehicles
    depot := 0 }

/-- Entry (i, j) of a matrix stored as a list of rows. -/
def entryAt (M : List (List ℤ)) (i j : Nat) : ℤ := (M.getD i []).getD j 0

/- Solve orchestrator (VRPApp.run_vrp_solver). The external routing engine is
abstracted as an oracle from search parameters to an optional solution; the
routing model it searches is fixed at build time, so the oracle is a function
of the parameters alone. -/

/-- First-solution strategies the code selects. -/
inductive Strategy where
  | PATH_CHEAPEST_ARC
  | SAVINGS
deriving DecidableEq

/-- Local search metaheuristics the code selects. -/
inductive Metaheuristic where
  | GUIDED_LOCAL_SEARCH
  | SIMULATED_ANNEALING
deriving DecidableEq

/-- The fields of the routing search parameters that the code sets; the
metaheuristic is none when left at its default. -/
structure SearchParameters where
  first_solution_strategy : Strategy
  local_search_metaheuristic : Option Metaheuristic
  time_limit_seconds : Nat
deriving DecidableEq

/-- A solution returned by the routing engine: for each vehicle, the node
positions visited from its start up to (excluding) its end sentinel; the end
sentinel itself maps back to node position 0. -/
structure Solution where
  visits : Nat → List Nat

/-- has_time_windows: some node declares a time window. -/
def hasTW (nodes : List Node) : Bool :=
  nodes.any (fun n => n.time_window.isSome)

/-- has_skills: some node declares required skills. -/
def hasSk (nodes : List Node) : Bool :=
  nodes.any (fun n => !n.required_skills.isEmpty)

/-- Whether vehicle v holds every skill of the list req
(all(skill in self.vehicle_skills.get(v_id, []) for skill in ...)). -/
def vehicleHasSkills (vehicle_skills : List (Nat × List String)) (v : Nat)
    (req : List String) : Bool :=
  req.all (fun sk => ((List.lookup v vehicle_skills).getD []).contains sk)

/-- The eligible vehicles for a node: every vehicle index below the vehicle
count whose skill set covers the required skills of the node. -/
def eligibleVehicles (num_vehicles : Nat)
    (vehicle_skills : List (Nat × List String)) (n : Node) : List Nat :=
  (List.range num_vehicles).filter
    (fun v => vehicleHasSkills vehicle_skills v n.required_skills)

/-- The first node (in list order) that requires skills no single vehicle
holds — the node whose discovery aborts the build. -/
def firstInfeasible (nodes : List Node) (num_vehicles : Nat)
    (vehicle_skills : List (Nat × List String)) : Option Node :=
  nodes.find? (fun n =>
    !n.required_skills.isEmpty &&
      (eligibleVehicles num_vehicles vehicle_skills n).isEmpty)

/-- The build-time feasibility check: run only when some node has skills. -/
def buildCheck (nodes : List Node) (num_vehicles : Nat)
    (vehicle_skills : List (Nat × List String)) : Option Node :=
  if hasSk nodes then firstInfeasible nodes num_vehicles vehicle_skills
  else none

/-- The search-parameter policy of run_vrp_solver: PATH_CHEAPEST_ARC, switched
to SAVINGS above 20 nodes; a 10 second budget; GUIDED_LOCAL_SEARCH and a 15
second budget when time windows or skills are present or above 15 nodes. -/
def chooseParams (num_nodes : Nat) (tw sk : Bool) : SearchParameters :=
  let strat := if num_nodes > 20 then Strategy.SAVINGS
               else Strategy.PATH_CHEAPEST_ARC
  if tw || sk || decide (num_nodes > 15) then
    { first_solution_strategy := strat
      local_search_metaheuristic := some Metaheuristic.GUIDED_LOCAL_SEARCH
      time_limit_seconds := 15 }
  else
    { first_solution_strategy := strat
      local_search_metaheuristic := none
      time_limit_seconds := 10 }

/-- The parameters of the first solve attempt for a given node list. -/
def firstParams (nodes : List Node) : SearchParameters :=
  chooseParams nodes.length (hasTW nodes) (hasSk nodes)

/-- The fallback parameters of the single retry: SAVINGS construction,
SIMULATED_ANNEALING metaheuristic, 20 second budget. -/
def fallbackParams : SearchParameters :=
  { first_solution_strategy := Strategy.SAVINGS
    local_search_metaheuristic := some Metaheuristic.SIMULATED_ANNEALING
    time_limit_seconds := 20 }

/-- The node id stored at a position of a node list (self.nodes[i].id). -/
def idAt (nodes : List Node) (i : Nat) : Nat := (nodes.getD i default).id

/-- Route extraction: each vehicle path mapped from node positions to node
ids, with the id at position 0 (where the end sentinel maps) appended. The
node list argument is the one the extraction loop reads. -/
def extractRoutes (nodes : List Node) (num_vehicles : Nat) (sol : Solution) :
    List (List Nat) :=
  (List.range num_vehicles).map
    (fun v => (sol.visits v).map (idAt nodes) ++ [idAt nodes 0])

/-- Accumulated arc cost along a position path, reading the matrix built at
build time. -/
def pathCost (M : List (List ℤ)) : List Nat → ℤ
  | [] => 0
  | [_] => 0
  | a :: b :: rest => entryAt M a b + pathCost M (b :: rest)

/-- max_route_distance: the maximum accumulated cost over the vehicles, each
path closed by the arc back to position 0, starting from 0. -/
def extractCost (M : List (List ℤ)) (num_vehicles : Nat) (sol : Solution) : ℤ :=
  ((List.range num_vehicles).map
    (fun v => pathCost M (sol.visits v ++ [0]))).foldl max 0

/-- The named error conditions run_vrp_solver reports. -/
inductive SolveError where
  | noVehicleHasSkills (node_id : Nat) (skills : List String)
  | needCustomer
  | needVehicle
  | relaxTimeWindows
  | checkVehicleSkills
  | increaseVehicles
deriving DecidableEq

/-- A message put on the result queue by the worker. -/
inductive QueueMsg where
  | debug
  | success (routes : List (List Nat)) (cost : ℤ)
  | err (e : SolveError)

/-- The observable outcome of one run of the worker: the queue messages in
order, and the parameter sets passed to SolveWithParameters in order. -/
structure RunResult where
  msgs : List QueueMsg
  calls : List SearchParameters

/-- run_vrp_solver. The worker reads the shared node list at several points;
nodesB is its value during the build and diagnosis reads, nodesE its value
during the extraction reads (the code takes no snapshot, so the two differ
when the scenario is edited while the solve runs). -/
noncomputable def run_vrp_solver (nodesB nodesE : List Node)
    (num_vehicles : Nat) (vehicle_skills : List (Nat × List String))
    (solver : SearchParameters → Option Solution) : RunResult :=
  match buildCheck nodesB num_vehicles vehicle_skills with
  | some n =>
    { msgs := [QueueMsg.debug,
               QueueMsg.err (SolveError.noVehicleHasSkills n.id n.required_skills)]
      calls := [] }
  | none =>
    match solver (firstParams nodesB) with
    | some sol =>
      { msgs := [QueueMsg.debug,
                 QueueMsg.success (extractRoutes nodesE num_vehicles sol)
                   (extractCost (prepare_solver_data nodesB num_vehicles).distance_matrix
                     num_vehicles sol)]
        calls := [firstParams nodesB] }
    | none =>
      if nodesE.length ≤ 1 then
        { msgs := [QueueMsg.debug, QueueMsg.err SolveError.needCustomer]
          calls := [firstParams nodesB] }
      else if num_vehicles < 1 then
        { msgs := [QueueMsg.debug, QueueMsg.err SolveError.needVehicle]
          calls := [firstParams nodesB] }
      else if hasTW nodesB then
        { msgs := [QueueMsg.debug, QueueMsg.err SolveError.relaxTimeWindows]
          calls := [firstParams nodesB] }
      else if hasSk nodesB then
        { msgs := [QueueMsg.debug, QueueMsg.err SolveError.checkVehicleSkills]
          calls := [firstParams nodesB] }
      else
        match solver fallbackParams with
        | some sol =>
          { msgs := [QueueMsg.debug, QueueMsg.debug,
                     QueueMsg.success (extractRoutes nodesE num_vehicles sol)
                       (extractCost (prepare_solver_data nodesB num_vehicles).distance_matrix
                         num_vehicles sol)]
            calls := [firstParams nodesB, fallbackParams] }
        | none =>
          { msgs := [QueueMsg.debug, QueueMsg.debug,
                     QueueMsg.err SolveError.increaseVehicles]
            calls := [firstParams nodesB, fallbackParams] }

/- Concrete scenarios, solver oracles and helper projections used to evaluate
the definitions at specific inputs. -/

def skillElectrician : String := "electrician"

def skillHeavyLift : String := "heavy_lift"

def textHundred : String := "100"

def textFifty : String := "50"

def depotEx : Node :=
  { id := 0, x := 0, y := 0, is_depot := true, time_window := none,
    required_skills := [] }

def custOne : Node :=
  { id := 1, x := 5, y := 0, is_depot := false, time_window := none,
    required_skills := [] }

def custTwo : Node :=
  { id := 2, x := 5, y := 0, is_depot := false, time_window := none,
    required_skills := [] }

def custSkilled : Node :=
  { id := 1, x := 5, y := 0, is_depot := false, time_window := none,
    required_skills := [skillElectrician] }

/-- A solver oracle answer visiting positions 0 then 1 with the only
vehicle. -/
def solEx : Solution := { visits := fun v => if v = 0 then [0, 1] else [0] }

/-- An engine that always finds solEx. -/
def oracleSome : SearchParameters → Option Solution := fun _ => some solEx

/-- An engine that never finds a solution. -/
def oracleNone : SearchParameters → Option Solution := fun _ => none

/-- The routes carried by a success message, if any. -/
def successRoutes : QueueMsg → Option (List (List Nat))
  | QueueMsg.success r _ => some r
  | _ => none

/-- A preset file that is valid JSON but holds none of the required keys. -/
def presetMissingAll : PresetData :=
  { nodes := none, num_vehicles := none, available_skills := none,
    vehicle_skills := none }

/-- A live scenario with one customer, a skill catalog, a vehicle assignment
and a drawn route. -/
def scenarioEx : Scenario :=
  { nodes := [depotEx, custOne], num_vehicles := 4,
    available_skills := [skillElectrician],
    vehicle_skills := [(0, [skillElectrician])], routes := [[0, 1, 0]] }

/-- A scenario whose customer requires a skill its only vehicle lacks. -/
def scenarioSk : Scenario :=
  { nodes := [depotEx, custSkilled], num_vehicles := 1,
    available_skills := [skillElectrician, skillHeavyLift],
    vehicle_skills := [(0, [skillHeavyLift])], routes := [] }

/- Helper lemmas. -/

theorem getD_range_map {β : Type} (n : Nat) (f : Nat → β) (i : Nat) (h : i < n)
    (d : β) : ((List.range n).map f).getD i d = f i := by
  rw [List.getD_eq_getElem?_getD, List.getElem?_map, List.getElem?_range h]
  rfl

theorem getD_map_of_lt {α β : Type} (f : α → β) (l : List α) (i : Nat)
    (h : i < l.length) (d : β) (d2 : α) :
    (l.map f).getD i d = f (l.getD i d2) := by
  rw [List.getD_eq_getElem?_getD, List.getElem?_map, List.getElem?_eq_getElem h,
      List.getD_eq_getElem l d2 h]
  rfl

theorem distEntry_comm (a b : Node) : distEntry a b = distEntry b a := by
  rw [distEntry, distEntry]
  have h : (a.x - b.x) ^ 2 + (a.y - b.y) ^ 2
      = (b.x - a.x) ^ 2 + (b.y - a.y) ^ 2 := by ring
  rw [h]

/- Theorems for the claims. -/

/-- C1: the claim says the first customer node created after initialization
has a positive id distinct from the depot id 0. The code refutes this: the
id counter starts at 0 and a depot does not consume an id, so after the depot
is created at initialization the first customer also receives id 0. -/
theorem c1_first_customer_id_is_zero :
    (VRPNode_init initial_id_counter 0 0 true).1.id = 0 ∧
    (VRPNode_init (VRPNode_init initial_id_counter 0 0 true).2 5 0 false).1.id
      = 0 ∧
    ¬ 0 < (VRPNode_init (VRPNode_init initial_id_counter 0 0 true).2 5 0
      false).1.id := by
  refine ⟨rfl, rfl, by decide⟩

/-- C6: the claim says a load of a structurally invalid preset leaves the
scenario exactly as before. The code refutes this: on a valid JSON object
with every required key missing, the load surfaces an error yet has already
cleared the node list and the routes of the live scenario. -/
theorem c6_load_partial_mutation :
    (on_load_preset scenarioEx presetMissingAll).2 = true ∧
    scenarioEx.nodes.length = 2 ∧
    scenarioEx.routes.length = 1 ∧
    (on_load_preset scenarioEx presetMissingAll).1.nodes = [] ∧
    (on_load_preset scenarioEx presetMissingAll).1.routes = [] := by
  refine ⟨rfl, rfl, rfl, rfl, rfl⟩

/-- C10: mapping a problem-space point to the canvas and back returns the
point exactly, in exact real arithmetic. -/
theorem c10_coordinate_round_trip (p : ℝ × ℝ) :
    canvas_to_vrp_coords (vrp_to_canvas_coords p.1 p.2).1
      (vrp_to_canvas_coords p.1 p.2).2 = p := by
  apply Prod.ext
  · simp only [canvas_to_vrp_coords, vrp_to_canvas_coords, scale_factor,
      canvas_width, canvas_height]
    norm_num
  · simp only [canvas_to_vrp_coords, vrp_to_canvas_coords, scale_factor,
      canvas_width, canvas_height]
    norm_num

/-- C7: the claim says the route extractor maps solver indices to node ids
through the ordering captured at build time, so a run with mid-solve edits
delivers the same result as a run without. The code refutes this: extraction
reads the live node list, and replacing the customer of id 1 by one of id 2
while the solve runs changes the delivered route from 0,1,0 to 0,2,0. -/
theorem c7_extractor_reads_live_nodes :
    extractRoutes [depotEx, custOne] 1 solEx = [[0, 1, 0]] ∧
    extractRoutes [depotEx, custTwo] 1 solEx = [[0, 2, 0]] ∧
    (run_vrp_solver [depotEx, custOne] [depotEx, custOne] 1 []
      oracleSome).msgs.map successRoutes = [none, some [[0, 1, 0]]] ∧
    (run_vrp_solver [depotEx, custOne] [depotEx, custTwo] 1 []
      oracleSome).msgs.map successRoutes = [none, some [[0, 2, 0]]] ∧
    (run_vrp_solver [depotEx, custOne] [depotEx, custTwo] 1 []
      oracleSome).msgs ≠
      (run_vrp_solver [depotEx, custOne] [depotEx, custOne] 1 []
        oracleSome).msgs := by
  have e1 : (run_vrp_solver [depotEx, custOne] [depotEx, custOne] 1 []
      oracleSome).msgs.map successRoutes = [none, some [[0, 1, 0]]] := rfl
  have e2 : (run_vrp_solver [depotEx, custOne] [depotEx, custTwo] 1 []
      oracleSome).msgs.map successRoutes = [none, some [[0, 2, 0]]] := rfl
  refine ⟨rfl, rfl, e1, e2, fun h => ?_⟩
  have h2 := congrArg (List.map successRoutes) h
  rw [e1, e2] at h2
  exact absurd h2 (by decide)

/-- C2: when some node requires skills no single vehicle fully holds, the
run reports the named infeasibility identifying such a node and its skills,
and the solving capability is never invoked (the call list is empty). -/
theorem c2_skill_infeasibility_blocks_solver
    (nodesB nodesE : List Node) (nv : Nat) (vs : List (Nat × List String))
    (solver : SearchParameters → Option Solution)
    (h : ∃ m ∈ nodesB, m.required_skills ≠ [] ∧
      eligibleVehicles nv vs m = []) :
    ∃ n ∈ nodesB, n.required_skills ≠ [] ∧ eligibleVehicles nv vs n = [] ∧
      run_vrp_solver nodesB nodesE nv vs solver =
        { msgs := [QueueMsg.debug,
            QueueMsg.err (SolveError.noVehicleHasSkills n.id n.required_skills)]
          calls := [] } := by
  obtain ⟨m, hmem, hne, helig⟩ := h
  have hpred : (!m.required_skills.isEmpty &&
      (eligibleVehicles nv vs m).isEmpty) = true := by
    simp [hne, helig]
  have hsome : (firstInfeasible nodesB nv vs).isSome := by
    rw [firstInfeasible, List.find?_isSome]
    exact ⟨m, hmem, hpred⟩
  obtain ⟨n, hfind⟩ := Option.isSome_iff_exists.mp hsome
  have hn := List.find?_some hfind
  have hnmem := List.mem_of_find?_eq_some hfind
  rw [Bool.and_eq_true] at hn
  have hnne : n.required_skills ≠ [] := by
    simpa using hn.1
  have hnelig : eligibleVehicles nv vs n = [] := by
    simpa [List.isEmpty_iff] using hn.2
  have hSk : hasSk nodesB = true := by
    rw [hasSk, List.any_eq_true]
    refine ⟨m, hmem, by simp [hne]⟩
  have hbc : buildCheck nodesB nv vs = some n := by
    simp only [buildCheck, hSk, if_true]
    exact hfind
  refine ⟨n, hnmem, hnne, hnelig, ?_⟩
  simp only [run_vrp_solver, hbc]

/-- C2 witness: in the scenario whose single customer requires a skill its
only vehicle lacks, the hypothesis holds and the run makes no solver call. -/
theorem c2_witness :
    (∃ m ∈ [depotEx, custSkilled], m.required_skills ≠ [] ∧
      eligibleVehicles 1 [(0, [skillHeavyLift])] m = []) ∧
    (run_vrp_solver [depotEx, custSkilled] [depotEx, custSkilled] 1
      [(0, [skillHeavyLift])] oracleSome).calls = [] := by
  have h := c2_skill_infeasibility_blocks_solver [depotEx, custSkilled]
    [depotEx, custSkilled] 1 [(0, [skillHeavyLift])] oracleSome (by decide)
  obtain ⟨n, hmem, hne, helig, hrun⟩ := h
  exact ⟨by decide, by rw [hrun]⟩

/-- C3: in every run the solver is invoked at most twice; and when the build
check passes and the first attempt finds no solution, the diagnosis follows
the stated precedence: too few nodes, then zero vehicles, then time windows
present (no retry), then skills present (no retry), and otherwise exactly one
retry with the fallback parameters, whose failure yields the generic error. -/
theorem c3_failure_precedence (nodes : List Node) (nv : Nat)
    (vs : List (Nat × List String))
    (solver : SearchParameters → Option Solution) :
    (run_vrp_solver nodes nodes nv vs solver).calls.length ≤ 2 ∧
    (buildCheck nodes nv vs = none → solver (firstParams nodes) = none →
      ((nodes.length ≤ 1 →
        run_vrp_solver nodes nodes nv vs solver =
          { msgs := [QueueMsg.debug, QueueMsg.err SolveError.needCustomer]
            calls := [firstParams nodes] }) ∧
       (1 < nodes.length → nv = 0 →
        run_vrp_solver nodes nodes nv vs solver =
          { msgs := [QueueMsg.debug, QueueMsg.err SolveError.needVehicle]
            calls := [firstParams nodes] }) ∧
       (1 < nodes.length → 0 < nv → hasTW nodes = true →
        run_vrp_solver nodes nodes nv vs solver =
          { msgs := [QueueMsg.debug, QueueMsg.err SolveError.relaxTimeWindows]
            calls := [firstParams nodes] }) ∧
       (1 < nodes.length → 0 < nv → hasTW nodes = false →
          hasSk nodes = true →
        run_vrp_solver nodes nodes nv vs solver =
          { msgs := [QueueMsg.debug, QueueMsg.err SolveError.checkVehicleSkills]
            calls := [firstParams nodes] }) ∧
       (1 < nodes.length → 0 < nv → hasTW nodes = false →
          hasSk nodes = false →
        ((solver fallbackParams = none →
          run_vrp_solver nodes nodes nv vs solver =
            { msgs := [QueueMsg.debug, QueueMsg.debug,
                QueueMsg.err SolveError.increaseVehicles]
              calls := [firstParams nodes, fallbackParams] }) ∧
         (∀ sol, solver fallbackParams = some sol →
          run_vrp_solver nodes nodes nv vs solver =
            { msgs := [QueueMsg.debug, QueueMsg.debug,
                QueueMsg.success (extractRoutes nodes nv sol)
                  (extractCost
                    (prepare_solver_data nodes nv).distance_matrix nv sol)]
              calls := [firstParams nodes, fallbackParams] }))))) := by
  constructor
  · cases hbc : buildCheck nodes nv vs with
    | some n => simp [run_vrp_solver, hbc]
    | none =>
      cases hs : solver (firstParams nodes) with
      | some sol => simp [run_vrp_solver, hbc, hs]
      | none =>
        cases hfb : solver fallbackParams with
        | some sol =>
          simp only [run_vrp_solver, hbc, hs]
          split_ifs <;> simp [hfb]
        | none =>
          simp only [run_vrp_solver, hbc, hs]
          split_ifs <;> simp [hfb]
  · intro hbc hfail
    refine ⟨?_, ?_, ?_, ?_, ?_⟩
    · intro h1
      simp only [run_vrp_solver, hbc, hfail]
      rw [if_pos h1]
    · intro h1 h2
      simp only [run_vrp_solver, hbc, hfail]
      rw [if_neg (by omega), if_pos (by omega)]
    · intro h1 h2 h3
      simp only [run_vrp_solver, hbc, hfail]
      rw [if_neg (by omega), if_neg (by omega), if_pos h3]
    · intro h1 h2 h3 h4
      simp only [run_vrp_solver, hbc, hfail]
      rw [if_neg (by omega), if_neg (by omega), if_neg (by simp [h3]),
          if_pos h4]
    · intro h1 h2 h3 h4
      constructor
      · intro hfb
        simp only [run_vrp_solver, hbc, hfail, hfb]
        rw [if_neg (by omega), if_neg (by omega), if_neg (by simp [h3]),
            if_neg (by simp [h4])]
      · intro sol hfb
        simp only [run_vrp_solver, hbc, hfail, hfb]
        rw [if_neg (by omega), if_neg (by omega), if_neg (by simp [h3]),
            if_neg (by simp [h4])]

/-- C3 witness: a constraint-free scenario of one customer and one vehicle
with an engine that never answers goes through the first attempt, the single
retry, and the generic error; the solver is called at most twice. -/
theorem c3_witness :
    buildCheck [depotEx, custOne] 1 [] = none ∧
    oracleNone (firstParams [depotEx, custOne]) = none ∧
    (run_vrp_solver [depotEx, custOne] [depotEx, custOne] 1 []
      oracleNone).calls.length ≤ 2 ∧
    run_vrp_solver [depotEx, custOne] [depotEx, custOne] 1 [] oracleNone =
      { msgs := [QueueMsg.debug, QueueMsg.debug,
          QueueMsg.err SolveError.increaseVehicles]
        calls := [firstParams [depotEx, custOne], fallbackParams] } := by
  have h := c3_failure_precedence [depotEx, custOne] 1 [] oracleNone
  refine ⟨rfl, rfl, h.1, ?_⟩
  exact ((h.2 rfl rfl).2.2.2.2 (by decide) (by decide) rfl rfl).1 rfl

/-- C4: the first-solution strategy is cheapest-arc insertion for at most 20
nodes and savings above; guided local search is enabled exactly when a time
window is present, a required skill is present, or the node count exceeds 15;
and the time budget is 10 when the metaheuristic is off and 15 when on. -/
theorem c4_strategy_policy (nodes : List Node) :
    ((firstParams nodes).first_solution_strategy =
      if nodes.length ≤ 20 then Strategy.PATH_CHEAPEST_ARC
      else Strategy.SAVINGS) ∧
    ((firstParams nodes).local_search_metaheuristic =
        some Metaheuristic.GUIDED_LOCAL_SEARCH ↔
      ((∃ n ∈ nodes, (n.time_window).isSome) ∨
       (∃ n ∈ nodes, n.required_skills ≠ []) ∨ 15 < nodes.length)) ∧
    ((firstParams nodes).local_search_metaheuristic = none ↔
      ¬ ((∃ n ∈ nodes, (n.time_window).isSome) ∨
         (∃ n ∈ nodes, n.required_skills ≠ []) ∨ 15 < nodes.length)) ∧
    ((firstParams nodes).local_search_metaheuristic = none →
      (firstParams nodes).time_limit_seconds = 10) ∧
    ((firstParams nodes).local_search_metaheuristic ≠ none →
      (firstParams nodes).time_limit_seconds = 15) := by
  have hcond : (hasTW nodes || hasSk nodes || decide (nodes.length > 15)) = true ↔
      ((∃ n ∈ nodes, (n.time_window).isSome) ∨
       (∃ n ∈ nodes, n.required_skills ≠ []) ∨ 15 < nodes.length) := by
    rw [Bool.or_eq_true, Bool.or_eq_true]
    simp only [hasTW, hasSk, List.any_eq_true, List.isEmpty_iff,
      Bool.not_eq_eq_eq_not, Bool.not_true, decide_eq_true_eq]
    constructor
    · rintro ((h | h) | h)
      · exact Or.inl h
      · refine Or.inr (Or.inl ?_)
        obtain ⟨n, hn, hne⟩ := h
        exact ⟨n, hn, by simpa [List.isEmpty_iff] using hne⟩
      · exact Or.inr (Or.inr h)
    · rintro (h | h | h)
      · exact Or.inl (Or.inl h)
      · refine Or.inl (Or.inr ?_)
        obtain ⟨n, hn, hne⟩ := h
        exact ⟨n, hn, by simpa [List.isEmpty_iff] using hne⟩
      · exact Or.inr h
  by_cases hc : (hasTW nodes || hasSk nodes || decide (nodes.length > 15))
      = true
  · refine ⟨?_, ?_, ?_, ?_, ?_⟩
    · by_cases h20 : nodes.length ≤ 20
      · rw [if_pos h20]
        simp only [firstParams, chooseParams]
        rw [if_pos hc, if_neg (by omega)]
      · rw [if_neg h20]
        simp only [firstParams, chooseParams]
        rw [if_pos hc, if_pos (by omega)]
    · simp only [firstParams, chooseParams]
      rw [if_pos hc]
      exact ⟨fun _ => hcond.mp hc, fun _ => rfl⟩
    · simp only [firstParams, chooseParams]
      rw [if_pos hc]
      constructor
      · intro hcontra
        exact absurd hcontra (by simp)
      · intro hcontra
        exact absurd (hcond.mp hc) hcontra
    · simp only [firstParams, chooseParams]
      rw [if_pos hc]
      intro hcontra
      exact absurd hcontra (by simp)
    · simp only [firstParams, chooseParams]
      rw [if_pos hc]
      intro _
      rfl
  · refine ⟨?_, ?_, ?_, ?_, ?_⟩
    · by_cases h20 : nodes.length ≤ 20
      · rw [if_pos h20]
        simp only [firstParams, chooseParams]
        rw [if_neg hc, if_neg (by omega)]
      · rw [if_neg h20]
        simp only [firstParams, chooseParams]
        rw [if_neg hc, if_pos (by omega)]
    · simp only [firstParams, chooseParams]
      rw [if_neg hc]
      constructor
      · intro hcontra
        exact absurd hcontra (by simp)
      · intro hcontra
        exact absurd (hcond.mpr hcontra) hc
    · simp only [firstParams, chooseParams]
      rw [if_neg hc]
      constructor
      · intro _ hcontra
        exact hc (hcond.mpr hcontra)
      · intro _
        rfl
    · simp only [firstParams, chooseParams]
      rw [if_neg hc]
      intro _
      rfl
    · simp only [firstParams, chooseParams]
      rw [if_neg hc]
      intro hcontra
      exact absurd rfl hcontra

/-- C4 witness: with one customer and no constraints the metaheuristic is
disabled and the time budget is 10. -/
theorem c4_witness :
    (firstParams [depotEx, custOne]).local_search_metaheuristic = none ∧
    (firstParams [depotEx, custOne]).time_limit_seconds = 10 ∧
    (firstParams [depotEx, custOne]).first_solution_strategy =
      Strategy.PATH_CHEAPEST_ARC := by
  have h := c4_strategy_policy [depotEx, custOne]
  have hnone : (firstParams [depotEx, custOne]).local_search_metaheuristic
      = none := by decide
  refine ⟨hnone, h.2.2.2.1 hnone, ?_⟩
  rw [h.1]
  decide

/-- C5: the problem builder produces a square matrix of side the node count
whose diagonal is zero, whose off-diagonal entry at positions i and j is the
Euclidean distance of the two nodes scaled by 100 and floored, which is
symmetric; and the depot position handed to the solver is 0. -/
theorem c5_distance_matrix (nodes : List Node) (nv : Nat)
    (i j : Fin nodes.length) :
    (prepare_solver_data nodes nv).distance_matrix.length = nodes.length ∧
    ((prepare_solver_data nodes nv).distance_matrix.getD i []).length
      = nodes.length ∧
    (prepare_solver_data nodes nv).depot = 0 ∧
    entryAt (prepare_solver_data nodes nv).distance_matrix i j =
      (if (i : Nat) = (j : Nat) then 0
       else Int.floor ((100 : ℝ) *
         Real.sqrt (((nodes.get i).x - (nodes.get j).x) ^ 2 +
           ((nodes.get i).y - (nodes.get j).y) ^ 2))) ∧
    entryAt (prepare_solver_data nodes nv).distance_matrix i j =
      entryAt (prepare_solver_data nodes nv).distance_matrix j i := by
  have hrow : ∀ k : Fin nodes.length,
      (prepare_solver_data nodes nv).distance_matrix.getD k [] =
        (List.range nodes.length).map (fun c =>
          if (k : Nat) = c then 0
          else distEntry (nodes.getD k default) (nodes.getD c default)) := by
    intro k
    simp only [prepare_solver_data, distance_matrix]
    exact getD_range_map _ _ _ k.isLt _
  have hentry : ∀ (a b : Fin nodes.length),
      entryAt (prepare_solver_data nodes nv).distance_matrix a b =
        if (a : Nat) = (b : Nat) then 0
        else distEntry (nodes.get a) (nodes.get b) := by
    intro a b
    rw [entryAt, hrow a, getD_range_map _ _ _ b.isLt]
    rw [List.getD_eq_getElem nodes default a.isLt,
        List.getD_eq_getElem nodes default b.isLt,
        List.get_eq_getElem, List.get_eq_getElem]
  refine ⟨?_, ?_, rfl, ?_, ?_⟩
  · simp [prepare_solver_data, distance_matrix]
  · rw [hrow i]
    simp
  · rw [hentry i j]
    by_cases hij : (i : Nat) = (j : Nat)
    · rw [if_pos hij, if_pos hij]
    · rw [if_neg hij, if_neg hij, distEntry, mul_comm]
  · rw [hentry i j, hentry j i]
    by_cases hij : (i : Nat) = (j : Nat)
    · rw [if_pos hij, if_pos (hij.symm)]
    · rw [if_neg hij, if_neg (fun h => hij h.symm), distEntry_comm]

/-- C8: deleting a cataloged skill removes it from the catalog, from every
vehicle entry and from every node; and nothing else changes: the vehicle
count, the routes, the keys of the vehicle mapping, every other skill of
every vehicle and node, and every other node field are preserved. The
duplicate-freedom hypotheses are the invariants of the Python model, where
the catalog and the vehicle lists are kept duplicate-free by the add
operations and node skills are a Python set. -/
theorem c8_delete_skill_cascade (s : Scenario) (sk : String)
    (_hin : sk ∈ s.available_skills)
    (hcat : s.available_skills.Nodup)
    (hveh : ∀ p ∈ s.vehicle_skills, (Prod.snd p).Nodup)
    (hnode : ∀ n ∈ s.nodes, n.required_skills.Nodup) :
    sk ∉ (on_delete_skill s sk).available_skills ∧
    (∀ p ∈ (on_delete_skill s sk).vehicle_skills, sk ∉ Prod.snd p) ∧
    (∀ n ∈ (on_delete_skill s sk).nodes, sk ∉ n.required_skills) ∧
    (∀ t : String, t ≠ sk →
      (t ∈ (on_delete_skill s sk).available_skills ↔
       t ∈ s.available_skills)) ∧
    (on_delete_skill s sk).num_vehicles = s.num_vehicles ∧
    (on_delete_skill s sk).routes = s.routes ∧
    (on_delete_skill s sk).vehicle_skills.length = s.vehicle_skills.length ∧
    (∀ i : Fin s.vehicle_skills.length,
      ((on_delete_skill s sk).vehicle_skills.getD i (0, [])).1 =
        (s.vehicle_skills.getD i (0, [])).1 ∧
      ∀ t : String, t ≠ sk →
        (t ∈ ((on_delete_skill s sk).vehicle_skills.getD i (0, [])).2 ↔
         t ∈ (s.vehicle_skills.getD i (0, [])).2)) ∧
    (on_delete_skill s sk).nodes.length = s.nodes.length ∧
    (∀ i : Fin s.nodes.length,
      ((on_delete_skill s sk).nodes.getD i default).id =
        (s.nodes.getD i default).id ∧
      ((on_delete_skill s sk).nodes.getD i default).x =
        (s.nodes.getD i default).x ∧
      ((on_delete_skill s sk).nodes.getD i default).y =
        (s.nodes.getD i default).y ∧
      ((on_delete_skill s sk).nodes.getD i default).is_depot =
        (s.nodes.getD i default).is_depot ∧
      ((on_delete_skill s sk).nodes.getD i default).time_window =
        (s.nodes.getD i default).time_window ∧
      ∀ t : String, t ≠ sk →
        (t ∈ ((on_delete_skill s sk).nodes.getD i default).required_skills ↔
         t ∈ (s.nodes.getD i default).required_skills)) := by
  refine ⟨?_, ?_, ?_, ?_, rfl, rfl, ?_, ?_, ?_, ?_⟩
  · exact hcat.not_mem_erase
  · intro p hp
    simp only [on_delete_skill, List.mem_map] at hp
    obtain ⟨q, hq, rfl⟩ := hp
    exact (hveh q hq).not_mem_erase
  · intro n hn
    simp only [on_delete_skill, List.mem_map] at hn
    obtain ⟨m, hm, rfl⟩ := hn
    exact (hnode m hm).not_mem_erase
  · intro t ht
    simp only [on_delete_skill]
    exact List.mem_erase_of_ne ht
  · simp [on_delete_skill]
  · intro i
    have hmap := getD_map_of_lt (fun p => (p.1, p.2.erase sk))
      s.vehicle_skills i i.isLt (0, ([] : List String)) (0, [])
    simp only [on_delete_skill]
    rw [hmap]
    exact ⟨rfl, fun t ht => List.mem_erase_of_ne ht⟩
  · simp [on_delete_skill]
  · intro i
    have hmap := getD_map_of_lt
      (fun n => { n with required_skills := n.required_skills.erase sk })
      s.nodes i i.isLt default default
    simp only [on_delete_skill]
    rw [hmap]
    exact ⟨rfl, rfl, rfl, rfl, rfl, fun t ht => List.mem_erase_of_ne ht⟩

/-- C8 witness: deleting the electrician skill from the two-skill scenario
clears it from the catalog and from the first vehicle entry. -/
theorem c8_witness :
    skillElectrician ∈ scenarioSk.available_skills ∧
    scenarioSk.available_skills.Nodup ∧
    skillElectrician ∉
      (on_delete_skill scenarioSk skillElectrician).available_skills ∧
    skillElectrician ∉
      ((on_delete_skill scenarioSk skillElectrician).nodes.getD 1
        default).required_skills := by
  have h := c8_delete_skill_cascade scenarioSk skillElectrician (by decide)
    (by decide) (by decide) (by decide)
  refine ⟨by decide, by decide, h.1, ?_⟩
  have hlt : 1 < (on_delete_skill scenarioSk skillElectrician).nodes.length := by
    decide
  have hmem : (on_delete_skill scenarioSk skillElectrician).nodes.getD 1 default
      ∈ (on_delete_skill scenarioSk skillElectrician).nodes := by
    rw [List.getD_eq_getElem _ _ hlt]
    exact List.getElem_mem hlt
  exact h.2.2.1 _ hmem

/-- C9: setting a time window succeeds exactly when both stripped texts parse
as integers with start before end and start nonnegative; every rejected input
leaves the node untouched; and a successful call stores exactly the parsed
window. In particular a window like 100 to 50 can never become node state. -/
theorem c9_set_time_window (node : Node) (a b : String) :
    ((on_set_time_window node a b).2 = TWResult.ok ↔
      ∃ s e : ℤ, parseInt (stripChars a.data) = some s ∧
        parseInt (stripChars b.data) = some e ∧ s < e ∧ 0 ≤ s) ∧
    ((on_set_time_window node a b).2 ≠ TWResult.ok →
      (on_set_time_window node a b).1 = node) ∧
    (∀ s e : ℤ, parseInt (stripChars a.data) = some s →
      parseInt (stripChars b.data) = some e → s < e → 0 ≤ s →
      (on_set_time_window node a b).1.time_window = some (s, e)) := by
  simp only [on_set_time_window]
  by_cases hempty :
      ((stripChars a.data).isEmpty || (stripChars b.data).isEmpty) = true
  · rw [if_pos hempty]
    have hnone : parseInt (stripChars a.data) = none ∨
        parseInt (stripChars b.data) = none := by
      rcases Bool.or_eq_true _ _ |>.mp hempty with h | h
      · left
        rw [List.isEmpty_iff.mp h]
        rfl
      · right
        rw [List.isEmpty_iff.mp h]
        rfl
    refine ⟨?_, fun _ => rfl, ?_⟩
    · constructor
      · intro hcontra
        exact absurd hcontra (by simp)
      · rintro ⟨s, e, hs, he, _, _⟩
        rcases hnone with h | h
        · rw [h] at hs
          exact absurd hs (by simp)
        · rw [h] at he
          exact absurd he (by simp)
    · intro s e hs he _ _
      rcases hnone with h | h
      · rw [h] at hs
        exact absurd hs (by simp)
      · rw [h] at he
        exact absurd he (by simp)
  · rw [if_neg hempty]
    cases ha : parseInt (stripChars a.data) with
    | none =>
      refine ⟨?_, fun _ => ?_, ?_⟩
      · constructor
        · intro hcontra
          cases hb : parseInt (stripChars b.data) <;>
            simp [hb] at hcontra
        · rintro ⟨s, e, hs, _, _, _⟩
          exact absurd hs (by simp)
      · cases hb : parseInt (stripChars b.data) <;> simp [hb]
      · intro s e hs _ _ _
        exact absurd hs (by simp)
    | some s0 =>
      cases hb : parseInt (stripChars b.data) with
      | none =>
        refine ⟨?_, fun _ => rfl, ?_⟩
        · constructor
          · intro hcontra
            simp at hcontra
          · rintro ⟨s, e, _, he, _, _⟩
            exact absurd he (by simp)
        · intro s e _ he _ _
          exact absurd he (by simp)
      | some e0 =>
        simp only []
        by_cases hge : s0 ≥ e0
        · rw [if_pos hge]
          refine ⟨?_, fun _ => rfl, ?_⟩
          · constructor
            · intro hcontra
              exact absurd hcontra (by simp)
            · rintro ⟨s, e, hs, he, hlt, _⟩
              have hs0 : s0 = s := by
                injection hs
              have he0 : e0 = e := by
                injection he
              omega
          · intro s e hs he hlt _
            have hs0 : s0 = s := by
              injection hs
            have he0 : e0 = e := by
              injection he
            omega
        · rw [if_neg hge]
          by_cases hneg : s0 < 0
          · rw [if_pos hneg]
            refine ⟨?_, fun _ => rfl, ?_⟩
            · constructor
              · intro hcontra
                exact absurd hcontra (by simp)
              · rintro ⟨s, e, hs, he, _, hge2⟩
                have hs0 : s0 = s := by
                  injection hs
                omega
            · intro s e hs _ _ hge2
              have hs0 : s0 = s := by
                injection hs
              omega
          · rw [if_neg hneg]
            refine ⟨?_, fun hcontra => absurd rfl hcontra, ?_⟩
            · refine ⟨fun _ => ⟨s0, e0, rfl, rfl, by omega, by omega⟩,
                fun _ => rfl⟩
            · intro s e hs he _ _
              have hs0 : s0 = s := by
                injection hs
              have he0 : e0 = e := by
                injection he
              rw [← hs0, ← he0]

/-- C9 witness: the inputs 100 and 50 are rejected and the depot node keeps
its empty time window. -/
theorem c9_witness :
    (on_set_time_window depotEx textHundred textFifty).2 ≠ TWResult.ok ∧
    (on_set_time_window depotEx textHundred textFifty).1 = depotEx := by
  have h := c9_set_time_window depotEx textHundred textFifty
  have hne : (on_set_time_window depotEx textHundred textFifty).2
      ≠ TWResult.ok := by decide
  exact ⟨hne, h.2.1 hne⟩

end VRP
